

import Mathlib

/-!
Verification of the ETL_and_ETLPipeline repository's transform and load stages.

The development shallowly embeds the two pipeline variants:
  * `src/ETL_PIPELINE/scripts/{transform.py, load.py}` (customer-churn data), and
  * `src/urban_air_pollutants/{transform.py, load.py}` (air-quality data).

Numeric cell values are modelled as `Option ℚ` (with `none` for pandas
NaN / Python None missing markers); float-NaN propagation through the
arithmetic and comparisons used by the code is modelled explicitly.
Remote insert calls are modelled by a success oracle indexed by attempt
(and chunk) number, since the code only branches on whether an attempt
succeeded.
-/

/-! ## Batching

Both loaders batch with the same slicing loop
(`for start in range(0, total_rows, batch_size): df.iloc[start : start + batch_size]`),
ETL_PIPELINE/scripts/load.py lines 116-118 and urban_air_pollutants/load.py
lines 126-128.  `batchChunks size l` produces the slices in order.  Python
`range` with step 0 raises `ValueError`; the `size = 0` branch returning `[]`
is outside the code's behaviour and every theorem about batching assumes
`0 < size`. -/
def batchChunks {α : Type} (size : Nat) : List α → List (List α)
  | [] => []
  | a :: t =>
    if h2 : size = 0 then []
    else (a :: t).take size :: batchChunks size ((a :: t).drop size)
termination_by l => l.length
decreasing_by
  simp only [List.length_drop]
  exact Nat.sub_lt (by simp) (Nat.pos_of_ne_zero h2)

/-! ## Retry loops

`insert_batch` embeds urban_air_pollutants/load.py lines 63-77: attempts are
numbered from 0, the oracle `succ` says whether a given attempt succeeds (the
call raised no exception and `response.data is not None`), the loop runs
`for attempt in range(retries + 1)` and returns `True` on the first success,
`False` once all `retries + 1` attempts failed.  The result's first component
counts the attempts actually made. -/

def insertBatchAux (succ : Nat → Bool) : Nat → Nat → Nat × Bool
  | attempt, 0 => (attempt, false)
  | attempt, fuel + 1 =>
    if succ attempt then (attempt + 1, true) else insertBatchAux succ (attempt + 1) fuel

def insert_batch (retries : Nat) (succ : Nat → Bool) : Nat × Bool :=
  insertBatchAux succ 0 (retries + 1)

/-- The retry loop of ETL_PIPELINE/scripts/load.py lines 121-140:
`for retry in range(max_retries)` with a `break` after a successful insert,
and a `break` (skip the batch) when `retry` reaches `max_retries - 1` after a
failure.  `etlAttemptsAux succ retry fuel` returns the total number of insert
attempts made, where `fuel` is the number of remaining loop iterations. -/
def etlAttemptsAux (succ : Nat → Bool) : Nat → Nat → Nat
  | retry, 0 => retry
  | retry, fuel + 1 =>
    if succ retry then retry + 1
    else if fuel = 0 then retry + 1
    else etlAttemptsAux succ (retry + 1) fuel

def etlAttempts (max_retries : Nat) (succ : Nat → Bool) : Nat :=
  etlAttemptsAux succ 0 max_retries

/-! ## The urban_air_pollutants load run

`load_to_supabase` embeds urban_air_pollutants/load.py lines 110-150: the
records are batched, each batch is handed to `insert_batch`, and
`success_count` / `fail_count` accumulate each batch's row count on exactly
one side.  The chunk size and retry budget are parameters (the code fixes
`BATCH_SIZE = 200` and `retries = 2`); `succ i a` tells whether attempt `a`
of chunk `i` succeeds.  `runChunks` records the per-chunk trace of the same
loop: one `ChunkOutcome` per iteration, in iteration order. -/

def BATCH_SIZE : Nat := 200

structure ChunkOutcome where
  index : Nat
  rows : Nat
  ok : Bool
deriving DecidableEq

def loadLoop {α : Type} (retries : Nat) (succ : Nat → Nat → Bool) :
    Nat → Nat → Nat → List (List α) → Nat × Nat
  | _, s, f, [] => (s, f)
  | i, s, f, c :: cs =>
    if (insert_batch retries (succ i)).2
    then loadLoop retries succ (i + 1) (s + c.length) f cs
    else loadLoop retries succ (i + 1) s (f + c.length) cs

def load_to_supabase {α : Type} (size retries : Nat) (records : List α)
    (succ : Nat → Nat → Bool) : Nat × Nat :=
  loadLoop retries succ 0 0 0 (batchChunks size records)

def runChunks {α : Type} (retries : Nat) (succ : Nat → Nat → Bool) :
    Nat → List (List α) → List ChunkOutcome
  | _, [] => []
  | i, c :: cs =>
    ChunkOutcome.mk i c.length (insert_batch retries (succ i)).2 ::
      runChunks retries succ (i + 1) cs

def loadOutcomes {α : Type} (size retries : Nat) (records : List α)
    (succ : Nat → Nat → Bool) : List ChunkOutcome :=
  runChunks retries succ 0 (batchChunks size records)

/-! ## Churn transform (ETL_PIPELINE/scripts/transform.py)

### Required-column missing-value fill (lines 68-70)

A cell of a required numeric column is a number, a missing marker (pandas
NaN), or some other Python object.  `seriesFillna filler col` is
`Series.fillna(filler)`: every missing cell becomes `filler`, nothing else
changes.  The source line is
`df[col].fillna(df[col].median, inplace=True)`: the argument is the bound
method object `df[col].median` itself — the call parentheses are missing —
not the column's median value, and the fill is attempted in place on the
temporary Series produced by the chained `df[col]` lookup.  Filling a float
column with a method object forces a dtype change, so pandas cannot perform
it in place: the filled object-dtype Series is a fresh allocation that is
discarded, the frame's column is untouched, and only a
SettingWithCopyWarning is emitted.  `fillRequiredColumn` is that net effect
on the frame's column. -/

inductive CellVal where
  | num : ℚ → CellVal
  | missing : CellVal
  | pyobj : String → CellVal
deriving DecidableEq

def seriesFillna (filler : CellVal) (col : List CellVal) : List CellVal :=
  col.map (fun v => if v = CellVal.missing then filler else v)

/-- The argument the code passes to `fillna`: the unapplied method object. -/
def medianMethodObject : CellVal := CellVal.pyobj "bound method Series.median"

def fillRequiredColumn (col : List CellVal) : List CellVal :=
  let _ := seriesFillna medianMethodObject col
  col

def insertSorted (x : ℚ) : List ℚ → List ℚ
  | [] => [x]
  | a :: t => if x ≤ a then x :: a :: t else a :: insertSorted x t

def sortRats (l : List ℚ) : List ℚ := l.foldr insertSorted []

/-- The value the spec intends to be substituted: `Series.median()` over the
non-missing values of the batch (pandas takes the middle element of the
sorted values, or the mean of the two middle elements for an even count). -/
def pandasMedian (l : List ℚ) : Option ℚ :=
  let s := sortRats l
  let n := s.length
  if n = 0 then none
  else if n % 2 = 1 then s[n / 2]?
  else do
    let a ← s[n / 2 - 1]?
    let b ← s[n / 2]?
    pure ((a + b) / 2)

/-! ### Binning (lines 76-89) and categorical derivations (lines 91-108)

`tenure_group` embeds the `pd.cut` call with `bins=[0, 12, 36, 60, inf]`,
`include_lowest=True` and the default `right=True`, i.e. the intervals
`[0, 12]`, `(12, 36]`, `(36, 60]`, `(60, inf)`; a NaN input or an input
outside every bin yields a NaN label.  `monthly_charge_segment` embeds the
`pd.cut` call with `bins=[0, 30, 70, inf]` and `right=False`, i.e.
`[0, 30)`, `[30, 70)`, `[70, inf)`. -/

def tenure_group (x : Option ℚ) : Option String :=
  match x with
  | none => none
  | some t =>
    if 0 ≤ t ∧ t ≤ 12 then some "New"
    else if 12 < t ∧ t ≤ 36 then some "Regular"
    else if 36 < t ∧ t ≤ 60 then some "Loyal"
    else if 60 < t then some "Champion"
    else none

def monthly_charge_segment (x : Option ℚ) : Option String :=
  match x with
  | none => none
  | some c =>
    if 0 ≤ c ∧ c < 30 then some "Low"
    else if 30 ≤ c ∧ c < 70 then some "Medium"
    else if 70 ≤ c then some "High"
    else none

/-- A float comparison `severity > threshold` where the left side may be NaN
(modelled as `none`): any comparison against NaN is false. -/
def floatGt (v : Option ℚ) (threshold : ℚ) : Bool :=
  match v with
  | none => false
  | some x => decide (threshold < x)

/-- urban_air_pollutants/transform.py lines 53-59. -/
def classify_risk (severity : Option ℚ) : String :=
  if floatGt severity 400 then "High Risk"
  else if floatGt severity 200 then "Moderate Risk"
  else "Low Risk"

/-- transform.py lines 92-96: `df['InternetService'].map({...})`; a category
outside the mapping becomes NaN. -/
def has_internet_service (s : String) : Option Int :=
  if s = "DSL" then some 1
  else if s = "Fiber optic" then some 1
  else if s = "No" then some 0
  else none

/-- transform.py lines 99-101: `lambda x: 1 if x == "Yes" else 0`. -/
def is_multi_line_user (s : String) : Int :=
  if s = "Yes" then 1 else 0

/-- transform.py lines 104-108: `df['Contract'].map({...})`. -/
def contract_type_code (s : String) : Option Int :=
  if s = "Month-to-month" then some 0
  else if s = "One year" then some 1
  else if s = "Two year" then some 2
  else none

/-! ## Air-quality transform (urban_air_pollutants/transform.py)

An enriched record's numeric cells are `Option ℚ`, with `none` standing for a
missing reading (Python `None` in the raw rows, float NaN once the frame's
columns are numeric — `pd.to_numeric` at line 164 maps `None` to NaN). -/

structure AirRow where
  city : String
  time : Option String
  pm10 : Option ℚ
  pm2_5 : Option ℚ
  carbon_monoxide : Option ℚ
  nitrogen_dioxide : Option ℚ
  sulphur_dioxide : Option ℚ
  ozone : Option ℚ
  uv_index : Option ℚ
deriving DecidableEq

/-- Float multiplication by a constant: NaN propagates. -/
def nanMul (v : Option ℚ) (c : ℚ) : Option ℚ := v.map (fun x => x * c)

/-- Float addition: NaN propagates. -/
def nanAdd (a b : Option ℚ) : Option ℚ :=
  match a, b with
  | some x, some y => some (x + y)
  | _, _ => none

/-- transform.py lines 40-48: the weighted severity sum, evaluated with
float semantics (any NaN input makes the sum NaN). -/
def compute_severity (row : AirRow) : Option ℚ :=
  nanAdd (nanAdd (nanAdd (nanAdd (nanAdd
    (nanMul row.pm2_5 5)
    (nanMul row.pm10 3))
    (nanMul row.nitrogen_dioxide 4))
    (nanMul row.sulphur_dioxide 4))
    (nanMul row.carbon_monoxide 2))
    (nanMul row.ozone 3)

/-! ### The hourly-arrays document shape (transform.py lines 131-147)

An Open-Meteo "hourly" document carries a `time` array and, per pollutant,
an optional parallel array of readings.  The code reads
`hourly.get("pm10", [None])[i]` for each pollutant: when the key is absent
the default is the one-element list `[None]`, so indexing it at any `i ≥ 1`
raises `IndexError` (only `uv_index` at line 145 guards with
`if "uv_index" in hourly`).  `pyIndex` models Python list indexing, and
`transformHourly` the per-document loop `for i in range(len(times))`; an
uncaught exception aborts the whole transform (the `try` at lines 78-84 only
covers reading the file). -/

structure HourlyDoc where
  time : List String
  pm10 : Option (List (Option ℚ))
  pm2_5 : Option (List (Option ℚ))
  carbon_monoxide : Option (List (Option ℚ))
  nitrogen_dioxide : Option (List (Option ℚ))
  sulphur_dioxide : Option (List (Option ℚ))
  ozone : Option (List (Option ℚ))
  uv_index : Option (List (Option ℚ))

/-- `hourly.get(key, [None])`. -/
def hourlyGet (o : Option (List (Option ℚ))) : List (Option ℚ) :=
  o.getD [none]

/-- Python list indexing: out of range raises `IndexError`. -/
def pyIndex {α : Type} (l : List α) (i : Nat) : Except String α :=
  match l[i]? with
  | some v => Except.ok v
  | none => Except.error "IndexError"

def hourlyRow (city : String) (doc : HourlyDoc) (i : Nat) : Except String AirRow := do
  let t ← pyIndex doc.time i
  let vpm10 ← pyIndex (hourlyGet doc.pm10) i
  let vpm25 ← pyIndex (hourlyGet doc.pm2_5) i
  let vco ← pyIndex (hourlyGet doc.carbon_monoxide) i
  let vno2 ← pyIndex (hourlyGet doc.nitrogen_dioxide) i
  let vso2 ← pyIndex (hourlyGet doc.sulphur_dioxide) i
  let vo3 ← pyIndex (hourlyGet doc.ozone) i
  let vuv ← match doc.uv_index with
    | some arr => pyIndex arr i
    | none => pure none
  pure (AirRow.mk city (some t) vpm10 vpm25 vco vno2 vso2 vo3 vuv)

def transformHourly (city : String) (doc : HourlyDoc) : Except String (List AirRow) :=
  (List.range doc.time.length).mapM (hourlyRow city doc)

/-- An hourly document with 24 timestamps whose `pm2_5` array is absent;
every other pollutant array has all 24 readings. -/
def hourlyDoc24 : HourlyDoc :=
  HourlyDoc.mk (List.replicate 24 "2024-01-01T00:00")
    (some (List.replicate 24 (some 10)))
    none
    (some (List.replicate 24 (some 10)))
    (some (List.replicate 24 (some 10)))
    (some (List.replicate 24 (some 10)))
    (some (List.replicate 24 (some 10)))
    none

/-! ## Loader per-record coercion (urban_air_pollutants/load.py lines 45-57)

`clean_record` walks every field of the row dict, replacing a float NaN by
`None`, then converts the `time` field from a `pd.Timestamp` to its ISO text
if (and only if) it still is a timestamp.  A record always has a `time` key
(the frame's `time` column, line 120), so it is modelled as a dedicated
field alongside the remaining key/value pairs.  A `timestampV s` carries the
ISO text `s` that `isoformat()` would render. -/

inductive PyVal where
  | nanF : PyVal
  | floatV : ℚ → PyVal
  | noneV : PyVal
  | timestampV : String → PyVal
  | textV : String → PyVal
  | intV : Int → PyVal
deriving DecidableEq

/-- Lines 49-51: `if isinstance(v, float) and np.isnan(v): record[k] = None`. -/
def cleanVal : PyVal → PyVal
  | PyVal.nanF => PyVal.noneV
  | v => v

/-- Lines 54-55: `if isinstance(record["time"], pd.Timestamp):
record["time"] = record["time"].isoformat()`. -/
def isoCoerce : PyVal → PyVal
  | PyVal.timestampV s => PyVal.textV s
  | v => v

structure PyRecord where
  time : PyVal
  fields : List (String × PyVal)
deriving DecidableEq

def cleanField (kv : String × PyVal) : String × PyVal :=
  (kv.1, cleanVal kv.2)

def clean_record (r : PyRecord) : PyRecord :=
  PyRecord.mk (isoCoerce (cleanVal r.time)) (r.fields.map cleanField)

/-! ## Properties -/

@[simp] lemma nanMul_none (c : ℚ) : nanMul none c = none := rfl

@[simp] lemma nanAdd_none_left (b : Option ℚ) : nanAdd none b = none := by
  cases b <;> rfl

@[simp] lemma nanAdd_none_right (a : Option ℚ) : nanAdd a none = none := by
  cases a <;> rfl

lemma batchChunks_nil {α : Type} (size : Nat) : batchChunks size ([] : List α) = [] := by
  rw [batchChunks]

lemma batchChunks_cons {α : Type} (size : Nat) (hs : size ≠ 0) (a : α) (t : List α) :
    batchChunks size (a :: t) =
      (a :: t).take size :: batchChunks size ((a :: t).drop size) := by
  rw [batchChunks]
  simp [hs]

lemma batchChunks_ne_nil {α : Type} (size : Nat) (hs : size ≠ 0) (l : List α) (hl : l ≠ []) :
    batchChunks size l ≠ [] := by
  obtain ⟨a, t, rfl⟩ := List.exists_cons_of_ne_nil hl
  rw [batchChunks_cons size hs a t]
  simp

lemma batchChunks_flatten {α : Type} (size : Nat) (hs : 0 < size) (l : List α) :
    (batchChunks size l).flatten = l := by
  have main : ∀ n (l : List α), l.length = n → (batchChunks size l).flatten = l := by
    intro n
    induction n using Nat.strong_induction_on with
    | _ n ih =>
      intro l hn
      match l with
      | [] => simp [batchChunks_nil]
      | a :: t =>
        rw [batchChunks_cons size (Nat.pos_iff_ne_zero.mp hs) a t]
        simp only [List.flatten_cons]
        rw [ih ((a :: t).drop size).length ?_ ((a :: t).drop size) rfl]
        · exact List.take_append_drop size (a :: t)
        · subst hn
          simp only [List.length_drop]
          exact Nat.sub_lt (by simp) hs
  exact main l.length l rfl

lemma batchChunks_dropLast_length {α : Type} (size : Nat) (hs : 0 < size) (l : List α) :
    ∀ c ∈ (batchChunks size l).dropLast, c.length = size := by
  have main : ∀ n (l : List α), l.length = n →
      ∀ c ∈ (batchChunks size l).dropLast, c.length = size := by
    intro n
    induction n using Nat.strong_induction_on with
    | _ n ih =>
      intro l hn c hc
      match l with
      | [] => simp [batchChunks_nil] at hc
      | a :: t =>
        rw [batchChunks_cons size (Nat.pos_iff_ne_zero.mp hs) a t] at hc
        by_cases hrest : batchChunks size ((a :: t).drop size) = []
        · rw [hrest] at hc
          simp at hc
        · rw [List.dropLast_cons_of_ne_nil hrest] at hc
          rcases List.mem_cons.mp hc with h | h
          · subst h
            have hdrop : (a :: t).drop size ≠ [] :=
              fun h0 => hrest (h0 ▸ batchChunks_nil size)
            have hlt : size < (a :: t).length := by
              by_contra hle
              push_neg at hle
              exact hdrop (List.drop_eq_nil_of_le hle)
            simp only [List.length_cons] at hlt
            simp only [List.length_take, List.length_cons]
            omega
          · refine ih ((a :: t).drop size).length ?_ ((a :: t).drop size) rfl c h
            subst hn
            simp only [List.length_drop]
            exact Nat.sub_lt (by simp) hs
  exact main l.length l rfl

lemma batchChunks_getLast_length {α : Type} (size : Nat) (hs : 0 < size) (l : List α) :
    ∀ c, (batchChunks size l).getLast? = some c → 1 ≤ c.length ∧ c.length ≤ size := by
  have main : ∀ n (l : List α), l.length = n →
      ∀ c, (batchChunks size l).getLast? = some c → 1 ≤ c.length ∧ c.length ≤ size := by
    intro n
    induction n using Nat.strong_induction_on with
    | _ n ih =>
      intro l hn c hc
      match l with
      | [] =>
        rw [batchChunks_nil] at hc
        simp at hc
      | a :: t =>
        rw [batchChunks_cons size (Nat.pos_iff_ne_zero.mp hs) a t] at hc
        by_cases hrest : batchChunks size ((a :: t).drop size) = []
        · rw [hrest] at hc
          simp only [List.getLast?_singleton, Option.some.injEq] at hc
          subst hc
          constructor
          · simp only [List.length_take, le_min_iff]
            exact ⟨hs, by simp⟩
          · simp [List.length_take]
        · obtain ⟨r, rs, hr⟩ := List.exists_cons_of_ne_nil hrest
          rw [hr, List.getLast?_cons_cons] at hc
          refine ih ((a :: t).drop size).length ?_ ((a :: t).drop size) rfl c ?_
          · subst hn
            simp only [List.length_drop]
            exact Nat.sub_lt (by simp) hs
          · rw [hr, hc]
  exact main l.length l rfl

lemma batchChunks_sum_length {α : Type} (size : Nat) (hs : 0 < size) (l : List α) :
    ((batchChunks size l).map List.length).sum = l.length := by
  rw [← List.length_flatten, batchChunks_flatten size hs l]

/-- C4: batching a record sequence with any positive chunk size and
concatenating the chunks in order reproduces the input exactly (no loss,
duplication or reordering); every chunk except possibly the last has exactly
`size` records, the last has between 1 and `size`, and the chunk lengths sum
to the input length. -/
theorem batch_partition_exact {α : Type} (size : Nat) (hs : 0 < size) (records : List α) :
    (batchChunks size records).flatten = records ∧
    (∀ c ∈ (batchChunks size records).dropLast, c.length = size) ∧
    (∀ c, (batchChunks size records).getLast? = some c →
      1 ≤ c.length ∧ c.length ≤ size) ∧
    ((batchChunks size records).map List.length).sum = records.length := by
  refine ⟨batchChunks_flatten size hs records,
    batchChunks_dropLast_length size hs records,
    batchChunks_getLast_length size hs records,
    batchChunks_sum_length size hs records⟩

/-- Witness for C4 at chunk size 2 over a five-record input. -/
theorem batch_partition_exact_witness :
    (batchChunks 2 [1, 2, 3, 4, 5]).flatten = [1, 2, 3, 4, 5] ∧
    (∀ c ∈ (batchChunks 2 [1, 2, 3, 4, 5]).dropLast, c.length = 2) ∧
    (∀ c, (batchChunks 2 [1, 2, 3, 4, 5]).getLast? = some c →
      1 ≤ c.length ∧ c.length ≤ 2) ∧
    ((batchChunks 2 [1, 2, 3, 4, 5]).map List.length).sum = 5 :=
  batch_partition_exact 2 (by decide) [1, 2, 3, 4, 5]

lemma insertBatchAux_all_fail (succ : Nat → Bool) (h : ∀ i, succ i = false) :
    ∀ fuel attempt, insertBatchAux succ attempt fuel = (attempt + fuel, false) := by
  intro fuel
  induction fuel with
  | zero => intro attempt; simp [insertBatchAux]
  | succ n ih =>
    intro attempt
    simp only [insertBatchAux, h attempt, Bool.false_eq_true, if_false]
    rw [ih (attempt + 1)]
    congr 1
    omega

lemma insertBatchAux_first_succ (succ : Nat → Bool) :
    ∀ fuel attempt k, k < fuel → (∀ i, i < k → succ (attempt + i) = false) →
      succ (attempt + k) = true →
      insertBatchAux succ attempt fuel = (attempt + k + 1, true) := by
  intro fuel
  induction fuel with
  | zero => intro attempt k hk; omega
  | succ n ih =>
    intro attempt k hk hbefore hat
    match k with
    | 0 =>
      have h0 : succ attempt = true := by simpa using hat
      simp [insertBatchAux, h0]
    | j + 1 =>
      have h0 : succ attempt = false := by simpa using hbefore 0 (by omega)
      simp only [insertBatchAux, h0, Bool.false_eq_true, if_false]
      have := ih (attempt + 1) j (by omega)
        (fun i hi => by
          have := hbefore (i + 1) (by omega)
          simpa [Nat.add_assoc, Nat.add_comm 1 i] using this)
        (by simpa [Nat.add_assoc, Nat.add_comm 1 j] using hat)
      rw [this]
      congr 1
      omega

lemma etlAttemptsAux_all_fail (succ : Nat → Bool) (h : ∀ i, succ i = false) :
    ∀ fuel retry, etlAttemptsAux succ retry fuel = retry + fuel := by
  intro fuel
  induction fuel with
  | zero => intro retry; simp [etlAttemptsAux]
  | succ n ih =>
    intro retry
    simp only [etlAttemptsAux, h retry, Bool.false_eq_true, if_false]
    by_cases hn : n = 0
    · subst hn; simp
    · simp only [hn, if_false]
      rw [ih (retry + 1)]
      omega

/-- C1 counterexample: in ETL_PIPELINE/scripts/load.py the retry loop is
`for retry in range(max_retries)` with `max_retries = 3`, so an always-failing
remote insert is attempted exactly `max_retries = 3` times, not the
`max_retries + 1 = 4` times the claim states. -/
theorem etl_retry_attempts_counterexample :
    etlAttempts 3 (fun _ => false) = 3 ∧ etlAttempts 3 (fun _ => false) ≠ 3 + 1 := by
  constructor
  · rfl
  · intro h
    simp [etlAttempts, etlAttemptsAux] at h

/-- C1 (amended): the urban_air_pollutants loader's `insert_batch` makes up to
`retries + 1` attempts — with an always-failing remote call it makes exactly
`retries + 1` attempts and reports failure, and if the call first succeeds on
attempt `N` (1-based, `N ≤ retries + 1`) it makes exactly `N` attempts and
reports success; the ETL_PIPELINE loader's retry loop instead makes exactly
`max_retries` attempts (not `max_retries + 1`) when every attempt fails,
before skipping the batch. -/
theorem load_retry_attempt_accounting (retries mr N : Nat) (f g : Nat → Bool)
    (hf : ∀ i, f i = false) (hN1 : 1 ≤ N) (hN2 : N ≤ retries + 1)
    (hg1 : ∀ i, i < N - 1 → g i = false) (hg2 : g (N - 1) = true) :
    insert_batch retries f = (retries + 1, false) ∧
    insert_batch retries g = (N, true) ∧
    etlAttempts mr f = mr := by
  refine ⟨?_, ?_, ?_⟩
  · have := insertBatchAux_all_fail f hf (retries + 1) 0
    simpa [insert_batch] using this
  · have := insertBatchAux_first_succ g (retries + 1) 0 (N - 1) (by omega)
      (fun i hi => by simpa using hg1 i hi) (by simpa using hg2)
    rw [insert_batch, this]
    congr 1
    omega
  · have := etlAttemptsAux_all_fail f hf mr 0
    simpa [etlAttempts] using this

/-- Witness for the amended C1: two retries (three attempts) with an
always-failing call, success on the second attempt with a call succeeding
first at attempt index 1, and the ETL loop at its configured
`max_retries = 3`. -/
theorem load_retry_attempt_accounting_witness :
    insert_batch 2 (fun _ => false) = (3, false) ∧
    insert_batch 2 (fun i => i == 1) = (2, true) ∧
    etlAttempts 3 (fun _ => false) = 3 :=
  load_retry_attempt_accounting 2 3 2 (fun _ => false) (fun i => i == 1)
    (fun _ => rfl) (by omega) (by omega)
    (fun i hi => by
      have h0 : i = 0 := by omega
      subst h0
      rfl)
    rfl

lemma loadLoop_sum {α : Type} (retries : Nat) (succ : Nat → Nat → Bool) :
    ∀ (cs : List (List α)) i s f,
      (loadLoop retries succ i s f cs).1 + (loadLoop retries succ i s f cs).2 =
        s + f + (cs.map List.length).sum := by
  intro cs
  induction cs with
  | nil => intro i s f; simp [loadLoop]
  | cons c cs ih =>
    intro i s f
    cases hb : (insert_batch retries (succ i)).2 with
    | true =>
      simp only [loadLoop, hb, if_true, List.map_cons, List.sum_cons]
      rw [ih]
      omega
    | false =>
      simp only [loadLoop, hb, Bool.false_eq_true, if_false, List.map_cons, List.sum_cons]
      rw [ih]
      omega

/-- C6: for every per-chunk success/failure pattern, the load summary's
succeeded and failed row counts partition the input:
`success_count + fail_count` equals the number of input records. -/
theorem load_report_totals {α : Type} (size retries : Nat) (hs : 0 < size)
    (records : List α) (succ : Nat → Nat → Bool) :
    (load_to_supabase size retries records succ).1 +
      (load_to_supabase size retries records succ).2 = records.length := by
  simp only [load_to_supabase]
  rw [loadLoop_sum retries succ (batchChunks size records) 0 0 0]
  simpa using batchChunks_sum_length size hs records

/-- Witness for C6: five records, chunk size 2, only chunk 0 succeeds. -/
theorem load_report_totals_witness :
    (load_to_supabase 2 2 [1, 2, 3, 4, 5] (fun i _ => i == 0)).1 +
      (load_to_supabase 2 2 [1, 2, 3, 4, 5] (fun i _ => i == 0)).2 = 5 :=
  load_report_totals 2 2 (by decide) [1, 2, 3, 4, 5] (fun i _ => i == 0)

lemma runChunks_spec {α : Type} (retries : Nat) (succ : Nat → Nat → Bool) :
    ∀ (cs : List (List α)) i,
      (runChunks retries succ i cs).map ChunkOutcome.index = List.range' i cs.length ∧
      (runChunks retries succ i cs).map ChunkOutcome.rows = cs.map List.length ∧
      (runChunks retries succ i cs).map ChunkOutcome.ok =
        (List.range' i cs.length).map (fun j => (insert_batch retries (succ j)).2) := by
  intro cs
  induction cs with
  | nil => intro i; simp [runChunks]
  | cons c cs ih =>
    intro i
    obtain ⟨h1, h2, h3⟩ := ih (i + 1)
    refine ⟨?_, ?_, ?_⟩ <;>
      simp [runChunks, List.range'_succ, h1, h2, h3]

lemma loadLoop_eq_outcomes {α : Type} (retries : Nat) (succ : Nat → Nat → Bool) :
    ∀ (cs : List (List α)) i s f,
      loadLoop retries succ i s f cs =
        (s + (((runChunks retries succ i cs).filter (fun o => o.ok)).map
            ChunkOutcome.rows).sum,
         f + (((runChunks retries succ i cs).filter (fun o => !o.ok)).map
            ChunkOutcome.rows).sum) := by
  intro cs
  induction cs with
  | nil => intro i s f; simp [loadLoop, runChunks]
  | cons c cs ih =>
    intro i s f
    cases hb : (insert_batch retries (succ i)).2 with
    | true =>
      simp only [loadLoop, hb, if_true]
      rw [ih]
      simp only [runChunks, hb, List.filter_cons, Bool.not_true, Bool.false_eq_true,
        if_true, if_false, List.map_cons, List.sum_cons, Prod.mk.injEq, and_true, true_and]
      omega
    | false =>
      simp only [loadLoop, hb, Bool.false_eq_true, if_false]
      rw [ih]
      simp only [runChunks, hb, List.filter_cons, Bool.not_false, Bool.false_eq_true,
        if_true, if_false, List.map_cons, List.sum_cons, Prod.mk.injEq, and_true, true_and]
      omega

/-- C7: under every per-chunk failure pattern the run completes, producing
exactly one outcome per chunk, in chunk order (outcome `i` carries chunk `i`'s
row count and its recorded success/failure), and the emitted summary report is
the aggregation of all those outcomes — a chunk that fails after exhausting
its retries never prevents the remaining chunks from being attempted. -/
theorem load_processes_every_chunk {α : Type} (size retries : Nat) (records : List α)
    (succ : Nat → Nat → Bool) :
    (loadOutcomes size retries records succ).map ChunkOutcome.index =
      List.range (batchChunks size records).length ∧
    (loadOutcomes size retries records succ).map ChunkOutcome.rows =
      (batchChunks size records).map List.length ∧
    (loadOutcomes size retries records succ).map ChunkOutcome.ok =
      (List.range (batchChunks size records).length).map
        (fun i => (insert_batch retries (succ i)).2) ∧
    load_to_supabase size retries records succ =
      ((((loadOutcomes size retries records succ).filter (fun o => o.ok)).map
          ChunkOutcome.rows).sum,
       (((loadOutcomes size retries records succ).filter (fun o => !o.ok)).map
          ChunkOutcome.rows).sum) := by
  obtain ⟨h1, h2, h3⟩ := runChunks_spec retries succ (batchChunks size records) 0
  refine ⟨?_, h2, ?_, ?_⟩
  · rw [List.range_eq_range']
    exact h1
  · rw [List.range_eq_range']
    exact h3
  · simp only [load_to_supabase, loadOutcomes]
    rw [loadLoop_eq_outcomes retries succ (batchChunks size records) 0 0 0]
    simp

/-- C2 (code bug): on the batch whose `TotalCharges` column is
`[1, missing, 3]`, the transform's fill step leaves the missing cell missing
— the chained in-place `fillna` call never updates the frame — even though
the Series-level fill it discards would have substituted the unapplied
`median` method object, not the batch median `2` that the spec requires. -/
theorem median_fill_not_applied :
    fillRequiredColumn [CellVal.num 1, CellVal.missing, CellVal.num 3] =
      [CellVal.num 1, CellVal.missing, CellVal.num 3] ∧
    seriesFillna medianMethodObject [CellVal.num 1, CellVal.missing, CellVal.num 3] =
      [CellVal.num 1, medianMethodObject, CellVal.num 3] ∧
    pandasMedian [1, 3] = some 2 := by
  refine ⟨rfl, by decide, ?_⟩
  have hsort : sortRats [1, 3] = [1, 3] := by
    norm_num [sortRats, insertSorted]
  simp only [pandasMedian, hsort]
  norm_num

/-- C3 counterexample: tenure 12 — exactly on the 12/36/60 boundary — lands
in "New", the band *below* the boundary (pandas `right=True` intervals), not
in "Regular" as a lower-inclusive reading requires; likewise severity exactly
200 is classified "Low Risk", not "Moderate Risk", because `classify_risk`
uses strict `>`. -/
theorem band_boundary_counterexample :
    tenure_group (some 12) = some "New" ∧
    tenure_group (some 12) ≠ some "Regular" ∧
    classify_risk (some 200) = "Low Risk" ∧
    classify_risk (some 200) ≠ "Moderate Risk" := by
  refine ⟨by decide, by decide, by decide, by decide⟩

/-- C3 (amended): the charge segments (boundaries 30/70) are lower-edge
inclusive as claimed — a boundary value starts the next band, one unit below
stays in the preceding band — but the tenure bands (12/36/60) and the risk
bands (200/400) are upper-edge inclusive: a value exactly on the boundary
falls in the *preceding* band, as does a value one unit below; values past
the last boundary fall in the unbounded final band. -/
theorem band_boundary_behaviour :
    monthly_charge_segment (some 30) = some "Medium" ∧
    monthly_charge_segment (some 29) = some "Low" ∧
    monthly_charge_segment (some 70) = some "High" ∧
    monthly_charge_segment (some 69) = some "Medium" ∧
    tenure_group (some 12) = some "New" ∧
    tenure_group (some 11) = some "New" ∧
    tenure_group (some 36) = some "Regular" ∧
    tenure_group (some 35) = some "Regular" ∧
    tenure_group (some 60) = some "Loyal" ∧
    tenure_group (some 59) = some "Loyal" ∧
    tenure_group (some 61) = some "Champion" ∧
    classify_risk (some 200) = "Low Risk" ∧
    classify_risk (some 199) = "Low Risk" ∧
    classify_risk (some 400) = "Moderate Risk" ∧
    classify_risk (some 399) = "Moderate Risk" ∧
    classify_risk (some 401) = "High Risk" := by
  decide

/-- C8 counterexample: for the unknown category "Maybe",
`is_multi_line_user` yields `0` — a member of its legal coded set `{0, 1}`
(the code for "not a multi-line user") — not the null or -1 fallback the claim
requires for out-of-set categories. -/
theorem categorical_fallback_counterexample :
    is_multi_line_user "Maybe" = 0 ∧
    is_multi_line_user "Maybe" ≠ -1 ∧
    (is_multi_line_user "Maybe" = 0 ∨ is_multi_line_user "Maybe" = 1) := by
  refine ⟨by decide, by decide, Or.inl (by decide)⟩

/-- C8 (amended): for any category value outside the known set,
`has_internet_service` and `contract_type_code` produce the null fallback
(NaN, modelled `none`) without raising, while `is_multi_line_user` maps every
value other than "Yes" — unknown categories included — to the in-set code
`0`, not to a null or -1 fallback. -/
theorem categorical_fallback (s : String)
    (h1 : s ≠ "DSL") (h2 : s ≠ "Fiber optic") (h3 : s ≠ "No")
    (h4 : s ≠ "Month-to-month") (h5 : s ≠ "One year") (h6 : s ≠ "Two year")
    (h7 : s ≠ "Yes") :
    has_internet_service s = none ∧
    contract_type_code s = none ∧
    is_multi_line_user s = 0 := by
  refine ⟨?_, ?_, ?_⟩
  · simp [has_internet_service, h1, h2, h3]
  · simp [contract_type_code, h4, h5, h6]
  · simp [is_multi_line_user, h7]

/-- Witness for the amended C8 at the unknown category "Surprise". -/
theorem categorical_fallback_witness :
    has_internet_service "Surprise" = none ∧
    contract_type_code "Surprise" = none ∧
    is_multi_line_user "Surprise" = 0 :=
  categorical_fallback "Surprise" (by decide) (by decide) (by decide)
    (by decide) (by decide) (by decide) (by decide)

/-- C10: whenever at least one of the six pollutant readings is missing, the
severity score is NaN; both threshold comparisons inside `classify_risk` are
then false, so the record is flagged "Low Risk" no matter how high its
remaining readings are. -/
theorem missing_pollutant_low_risk (row : AirRow)
    (h : row.pm10 = none ∨ row.pm2_5 = none ∨ row.carbon_monoxide = none ∨
      row.nitrogen_dioxide = none ∨ row.sulphur_dioxide = none ∨ row.ozone = none) :
    compute_severity row = none ∧
    floatGt (compute_severity row) 400 = false ∧
    floatGt (compute_severity row) 200 = false ∧
    classify_risk (compute_severity row) = "Low Risk" := by
  have hnone : compute_severity row = none := by
    rcases h with h | h | h | h | h | h <;> simp [compute_severity, h]
  rw [hnone]
  refine ⟨rfl, rfl, rfl, rfl⟩

/-- Witness for C10: pm10 missing, every other reading enormous — still
"Low Risk". -/
theorem missing_pollutant_low_risk_witness :
    compute_severity
      (AirRow.mk "delhi" (some "2024-01-01T00:00") none (some 10000) (some 10000)
        (some 10000) (some 10000) (some 10000) none) = none ∧
    floatGt (compute_severity
      (AirRow.mk "delhi" (some "2024-01-01T00:00") none (some 10000) (some 10000)
        (some 10000) (some 10000) (some 10000) none)) 400 = false ∧
    floatGt (compute_severity
      (AirRow.mk "delhi" (some "2024-01-01T00:00") none (some 10000) (some 10000)
        (some 10000) (some 10000) (some 10000) none)) 200 = false ∧
    classify_risk (compute_severity
      (AirRow.mk "delhi" (some "2024-01-01T00:00") none (some 10000) (some 10000)
        (some 10000) (some 10000) (some 10000) none)) = "Low Risk" :=
  missing_pollutant_low_risk
    (AirRow.mk "delhi" (some "2024-01-01T00:00") none (some 10000) (some 10000)
      (some 10000) (some 10000) (some 10000) none) (Or.inl rfl)

/-- C5 (code bug): normalizing an hourly document with 24 timestamps and a
missing pollutant array does not produce 24 records with that pollutant set
to the missing marker — the `.get(key, [None])[i]` access raises `IndexError`
at the second timestamp and the transform run aborts. -/
theorem hourly_missing_pollutant_raises :
    transformHourly "delhi" hourlyDoc24 = Except.error "IndexError" := by
  rfl

lemma cleanVal_idem (v : PyVal) : cleanVal (cleanVal v) = cleanVal v := by
  cases v <;> rfl

lemma cleanField_idem (kv : String × PyVal) : cleanField (cleanField kv) = cleanField kv := by
  cases kv with
  | mk k v => simp [cleanField, cleanVal_idem]

lemma isoCoerce_cleanVal_isoCoerce (v : PyVal) :
    isoCoerce (cleanVal (isoCoerce (cleanVal v))) = isoCoerce (cleanVal v) := by
  cases v <;> rfl

/-- C9: the loader's per-record coercion is idempotent — applying
`clean_record` to an already-coerced record returns it unchanged (`None`
stays `None`, an already-textual timestamp is untouched, and no other field
is modified). -/
theorem clean_record_idempotent (r : PyRecord) :
    clean_record (clean_record r) = clean_record r := by
  cases r with
  | mk t fs =>
    simp only [clean_record, List.map_map, PyRecord.mk.injEq]
    exact ⟨isoCoerce_cleanVal_isoCoerce t,
      List.map_congr_left (fun kv _ => cleanField_idem kv)⟩
